import Mathlib

/-!
# Verification of the qwikee mod acquisition and installation pipeline

A shallow embedding, in Lean 4, of the pure core of the qwikee repository
(src/mcmod/cli.py and src/qwikee.py): the staging set operations, the
archive metadata extractor, the installed-state rescan, the download and
verification engine, and the batch registry resolver.  Stateful Python code
is embedded as explicit state passing (the persisted staging file, the
persisted installed-mods record, the destination and temporary download
files each appear as explicit inputs and outputs); fallible code returns
Option or Except; the Python exception flow of the metadata extractor is
made explicit through an error type naming the exception classes the
source raises and catches.
-/

namespace Qwikee

/-! ## Data model: ModInfo (src/mcmod/cli.py, lines 58-83)

The dataclass has nine fields without defaults followed by seven fields
with defaults.  Python ints are embedded as Int, strings as String, string
lists as List String. -/

structure ModInfo where
  id : String
  name : String
  description : String
  author : String
  downloads : Int
  categories : List String
  game_versions : List String
  download_url : String
  filename : String
  mod_loader : String := "fabric"
  file_size : Int := 0
  project_url : String := ""
  version_id : String := ""
  version_number : String := ""
  file_hash : String := ""
  last_updated : String := ""
deriving DecidableEq, Repr, Inhabited

/-! ## Persisted staging file (src/mcmod/cli.py, lines 78-84, 819-838)

The staging file holds a JSON array of flat dicts.  A JSON value stored in
such a dict is a string, an int, or a list of strings; a dict is an
association list over those values.  ModInfo.to_dict is dataclasses.asdict
(all sixteen fields, in declaration order); ModInfo.from_dict is
cls(**data): it fails on an unknown key or a missing required key and
fills missing defaulted keys with the dataclass defaults. -/

inductive JVal where
  | s (v : String)
  | n (v : Int)
  | l (v : List String)
deriving DecidableEq, Repr

def ModInfo.to_dict (m : ModInfo) : List (String × JVal) :=
  [("id", JVal.s m.id), ("name", JVal.s m.name),
   ("description", JVal.s m.description), ("author", JVal.s m.author),
   ("downloads", JVal.n m.downloads), ("categories", JVal.l m.categories),
   ("game_versions", JVal.l m.game_versions),
   ("download_url", JVal.s m.download_url), ("filename", JVal.s m.filename),
   ("mod_loader", JVal.s m.mod_loader), ("file_size", JVal.n m.file_size),
   ("project_url", JVal.s m.project_url), ("version_id", JVal.s m.version_id),
   ("version_number", JVal.s m.version_number),
   ("file_hash", JVal.s m.file_hash), ("last_updated", JVal.s m.last_updated)]

def modInfoKeys : List String :=
  ["id", "name", "description", "author", "downloads", "categories",
   "game_versions", "download_url", "filename", "mod_loader", "file_size",
   "project_url", "version_id", "version_number", "file_hash", "last_updated"]

def jgetS (d : List (String × JVal)) (k : String) : Option String :=
  match d.lookup k with
  | some (JVal.s v) => some v
  | _ => none

def jgetN (d : List (String × JVal)) (k : String) : Option Int :=
  match d.lookup k with
  | some (JVal.n v) => some v
  | _ => none

def jgetL (d : List (String × JVal)) (k : String) : Option (List String) :=
  match d.lookup k with
  | some (JVal.l v) => some v
  | _ => none

def jgetSD (d : List (String × JVal)) (k : String) (dflt : String) : Option String :=
  match d.lookup k with
  | some (JVal.s v) => some v
  | some _ => none
  | none => some dflt

def jgetND (d : List (String × JVal)) (k : String) (dflt : Int) : Option Int :=
  match d.lookup k with
  | some (JVal.n v) => some v
  | some _ => none
  | none => some dflt

def ModInfo.from_dict (d : List (String × JVal)) : Option ModInfo :=
  if d.all (fun kv => modInfoKeys.contains kv.1) then do
    let id ← jgetS d "id"
    let name ← jgetS d "name"
    let description ← jgetS d "description"
    let author ← jgetS d "author"
    let downloads ← jgetN d "downloads"
    let categories ← jgetL d "categories"
    let game_versions ← jgetL d "game_versions"
    let download_url ← jgetS d "download_url"
    let filename ← jgetS d "filename"
    let mod_loader ← jgetSD d "mod_loader" "fabric"
    let file_size ← jgetND d "file_size" 0
    let project_url ← jgetSD d "project_url" ""
    let version_id ← jgetSD d "version_id" ""
    let version_number ← jgetSD d "version_number" ""
    let file_hash ← jgetSD d "file_hash" ""
    let last_updated ← jgetSD d "last_updated" ""
    pure { id := id, name := name, description := description,
           author := author, downloads := downloads, categories := categories,
           game_versions := game_versions, download_url := download_url,
           filename := filename, mod_loader := mod_loader,
           file_size := file_size, project_url := project_url,
           version_id := version_id, version_number := version_number,
           file_hash := file_hash, last_updated := last_updated }
  else none

/-- save_staged_mods (src/mcmod/cli.py 832-838): json.dump of the list of
to_dict records, replacing the whole file. -/
def save_staged_mods (mods : List ModInfo) : List (List (String × JVal)) :=
  mods.map ModInfo.to_dict

/-- The list comprehension of get_staged_mods: from_dict on every record,
failing as a whole when any single conversion fails (the exception aborts
the comprehension). -/
def fromDictAll : List (List (String × JVal)) → Option (List ModInfo)
  | [] => some []
  | d :: rest =>
    match ModInfo.from_dict d, fromDictAll rest with
    | some m, some ms => some (m :: ms)
    | _, _ => none

/-- get_staged_mods (src/mcmod/cli.py 819-830): a missing file yields [];
a file whose records all convert through from_dict yields that list; any
failure is caught and yields []. -/
def get_staged_mods (file : Option (List (List (String × JVal)))) : List ModInfo :=
  match file with
  | none => []
  | some data =>
    match fromDictAll data with
    | some mods => mods
    | none => []

/-! ## Staging set operations (src/mcmod/cli.py, lines 861-913)

Each operation reads the staged list, mutates it, and persists on change.
The embedding passes the staged list explicitly and reports whether the
file was rewritten where a claim depends on it. -/

/-- add_to_staging (861-873): duplicate id is reported with False and
nothing is persisted; otherwise the mod is appended and saved, True. -/
def add_to_staging (mod : ModInfo) (staged : List ModInfo) : Bool × List ModInfo :=
  if staged.any (fun m => m.id == mod.id) then (false, staged)
  else (true, staged ++ [mod])

/-- The loop of add_mods_to_staging (883-888): walks the batch keeping the
set of already-seen ids (initially the ids of the staged list), collecting
fresh mods in order and counting skipped ones.  The id of a mod is added
to the seen set only when the mod is collected, exactly as in the source
(a skipped mod's id is already in the set). -/
def stageBatch (ids : List String) : List ModInfo → List ModInfo × Nat
  | [] => ([], 0)
  | m :: rest =>
    if m.id ∈ ids then
      let r := stageBatch ids rest
      (r.1, r.2 + 1)
    else
      let r := stageBatch (m.id :: ids) rest
      (m :: r.1, r.2)

/-- add_mods_to_staging (875-894): returns (added, skipped) and the new
staged list (extended by the fresh mods; when no mod is fresh the file is
not rewritten, but its contents are unchanged either way). -/
def add_mods_to_staging (mods : List ModInfo) (staged : List ModInfo) :
    (Nat × Nat) × List ModInfo :=
  let r := stageBatch (staged.map (fun m => m.id)) mods
  ((r.1.length, r.2), staged ++ r.1)

/-- remove_from_staging (896-908): filters out every entry with the given
id; persists and returns True exactly when the list got shorter, else
returns False without rewriting the file.  Result: (returned bool, staged
list after the call, whether save_staged_mods was called). -/
def remove_from_staging (mod_id : String) (staged : List ModInfo) :
    Bool × List ModInfo × Bool :=
  let filtered := staged.filter (fun m => m.id != mod_id)
  if filtered.length < staged.length then (true, filtered, true)
  else (false, staged, false)

/-- Index i of the batch is fresh with respect to the seen ids: its id is
neither among them nor carried by an earlier batch element.  This is the
claim-side characterisation of which batch elements count as added. -/
def freshAt (ids : List String) (mods : List ModInfo) (i : Nat) : Prop :=
  (mods.getD i default).id ∉ ids ∧
    ∀ j, j < i → (mods.getD j default).id ≠ (mods.getD i default).id

instance (ids : List String) (mods : List ModInfo) (i : Nat) :
    Decidable (freshAt ids mods i) := by
  unfold freshAt; infer_instance

/-! ## Archive metadata extractor (src/mcmod/cli.py, lines 58-121, 604-740)

parse_mod_file opens the archive as a zip and tries, in order,
_parse_fabric_mod (fabric.mod.json, JSON), _parse_forge_mod
(META-INF/mods.toml, decoded as UTF-8 and run through _parse_simple_toml)
and _parse_legacy_mod (mcmod.info, JSON).  Each helper wraps its body in a
try/except naming specific exception classes; any other exception
propagates to the single catch-all around the whole chain, after which the
filename fallback record is built.

The embedding models one archive entry by what reading and parsing it
yields: for a JSON entry, missing (KeyError on zip_file.open), bytes that
do not decode (UnicodeDecodeError inside json.load), content that decodes
but is not JSON (json.JSONDecodeError), or a parsed value; for the TOML
entry, missing, non-UTF-8 bytes, or the decoded text.  The exception
classes are reified so that which ones each helper catches is written
exactly as in the source. -/

structure InstalledMod where
  filename : String
  name : String
  version : String
  mod_id : String
  author : String
  description : String
  mod_loader : String
  file_size : Nat
  file_hash : String := ""
  install_date : String := ""
  source_url : String := ""
  version_id : String := ""
deriving DecidableEq, Repr, Inhabited

/-- The Python exception classes relevant to the extractor chain. -/
inductive PyErr where
  | keyError
  | jsonError
  | unicodeError
  | otherErr
deriving DecidableEq, Repr

/-- Outcome of zip_file.open + json.load on one archive entry that is
expected to hold JSON. -/
inductive JsonRead (α : Type) where
  | ok (val : α)
  | malformed
  | badEncoding
deriving DecidableEq, Repr

/-- Outcome of zip_file.open + read().decode on the mods.toml entry. -/
inductive TomlRead where
  | ok (content : String)
  | badEncoding
deriving DecidableEq, Repr

/-- The fields of fabric.mod.json that _parse_fabric_mod reads.  authors
may be a JSON list (joined) or a plain string (used as is). -/
structure FabricData where
  name : Option String
  version : Option String
  modid : Option String
  authors : Option (List String ⊕ String)
  description : Option String
deriving DecidableEq, Repr

/-- One entry of a parsed mcmod.info JSON array. -/
structure McmodEntry where
  name : Option String
  version : Option String
  modid : Option String
  authorList : Option (List String)
  description : Option String
deriving DecidableEq, Repr

/-- A parsed mcmod.info value: either not a JSON array (isinstance check
fails) or an array of entries. -/
inductive McmodJson where
  | notList
  | arr (entries : List McmodEntry)
deriving DecidableEq, Repr

/-- The filesystem facts about the archive file that the extractor uses:
file_path.name and .stem, stat().st_size, the isoformat of the mtime, and
the streamed content hash that FileUtils.calculate_file_hash returns. -/
structure FileMeta where
  name : String
  stem : String
  size : Nat
  mtimeIso : String
  hash : String
deriving DecidableEq, Repr, Inhabited

structure Archive where
  meta : FileMeta
  zipOk : Bool
  fabric : Option (JsonRead FabricData)
  modsToml : Option TomlRead
  mcmodInfo : Option (JsonRead McmodJson)
deriving DecidableEq, Repr

/-- zip_file.open('fabric.mod.json') + json.load: a missing entry raises
KeyError, undecodable bytes raise UnicodeDecodeError, non-JSON text raises
json.JSONDecodeError. -/
def readFabricJson (a : Archive) : Except PyErr FabricData :=
  match a.fabric with
  | none => Except.error PyErr.keyError
  | some JsonRead.malformed => Except.error PyErr.jsonError
  | some JsonRead.badEncoding => Except.error PyErr.unicodeError
  | some (JsonRead.ok d) => Except.ok d

/-- zip_file.open('META-INF/mods.toml') + read().decode('utf-8'). -/
def readModsToml (a : Archive) : Except PyErr String :=
  match a.modsToml with
  | none => Except.error PyErr.keyError
  | some TomlRead.badEncoding => Except.error PyErr.unicodeError
  | some (TomlRead.ok content) => Except.ok content

/-- zip_file.open('mcmod.info') + json.load. -/
def readMcmodInfo (a : Archive) : Except PyErr McmodJson :=
  match a.mcmodInfo with
  | none => Except.error PyErr.keyError
  | some JsonRead.malformed => Except.error PyErr.jsonError
  | some JsonRead.badEncoding => Except.error PyErr.unicodeError
  | some (JsonRead.ok j) => Except.ok j

/-- A try/except that absorbs exactly the listed exception classes into
the Python `pass; return None` path and lets every other one propagate. -/
def catches (handled : List PyErr) (x : Except PyErr (Option InstalledMod)) :
    Except PyErr (Option InstalledMod) :=
  match x with
  | Except.error e => if e ∈ handled then Except.ok none else Except.error e
  | Except.ok v => Except.ok v

/-- The record _parse_fabric_mod builds from parsed fabric.mod.json. -/
def fabricRecord (meta : FileMeta) (d : FabricData) : InstalledMod :=
  let author :=
    match d.authors.getD (Sum.inl []) with
    | Sum.inl l => String.intercalate ", " (l.take 2)
    | Sum.inr s => s
  { filename := meta.name,
    name := d.name.getD meta.stem,
    version := d.version.getD "Unknown",
    mod_id := d.modid.getD meta.stem,
    author := if author = "" then "Unknown" else author,
    description := d.description.getD "No description",
    mod_loader := "fabric",
    file_size := meta.size,
    file_hash := meta.hash,
    install_date := meta.mtimeIso }

/-- _parse_fabric_mod (633-660): catches KeyError and JSONDecodeError. -/
def parse_fabric_mod (a : Archive) : Except PyErr (Option InstalledMod) :=
  catches [PyErr.keyError, PyErr.jsonError]
    ((readFabricJson a).map (fun d => some (fabricRecord a.meta d)))

/-- str.split(sep) for a one-character separator, over the character
list.  Splitting the empty list yields one empty field, as in Python. -/
def splitOnChar (c : Char) : List Char → List (List Char)
  | [] => [[]]
  | x :: xs =>
    match splitOnChar c xs with
    | [] => [[]]
    | cur :: rest =>
      if x == c then [] :: cur :: rest else (x :: cur) :: rest

/-- str.strip() over the character list. -/
def trimChars (l : List Char) : List Char :=
  ((l.dropWhile Char.isWhitespace).reverse.dropWhile Char.isWhitespace).reverse

/-- strip('"\x27') on both ends. -/
def stripQuotes (l : List Char) : List Char :=
  let isQ := fun (c : Char) => c == '"' || c == '\''
  ((l.dropWhile isQ).reverse.dropWhile isQ).reverse

/-- line.startswith('#'). -/
def startsWithHash : List Char → Bool
  | c :: _ => c == '#'
  | [] => false

/-- str.lower() over the character list (these list-level helpers stand
in for the corresponding String functions so that every definition
reduces structurally). -/
def lowerStr (s : String) : String := String.mk (s.data.map Char.toLower)

/-- _parse_simple_toml (713-724): line-oriented flat key=value extraction.
Each line is stripped; lines containing '=' and not starting with '#'
contribute key (before the first '='), value (the rest, stripped of
whitespace then of surrounding quotes).  Represented as the assignment
sequence in file order; dict semantics make a later assignment to the same
key win. -/
def parse_simple_toml (content : String) : List (String × String) :=
  (splitOnChar '\n' content.data).filterMap (fun rawLine =>
    let line := trimChars rawLine
    if line.contains '=' && ¬(startsWithHash line = true) then
      match splitOnChar '=' line with
      | [] => none
      | key :: rest =>
        some (String.mk (trimChars key),
          String.mk (stripQuotes (trimChars (List.intercalate ['='] rest))))
    else none)

/-- dict.get with a default over the assignment sequence: the last
assignment to the key wins. -/
def tomlGet (kvs : List (String × String)) (k : String) (dflt : String) : String :=
  match kvs.reverse.lookup k with
  | some v => v
  | none => dflt

/-- The record _parse_forge_mod builds from the parsed mods.toml dict. -/
def forgeRecord (meta : FileMeta) (kvs : List (String × String)) : InstalledMod :=
  { filename := meta.name,
    name := tomlGet kvs "displayName" meta.stem,
    version := tomlGet kvs "version" "Unknown",
    mod_id := tomlGet kvs "modId" meta.stem,
    author := tomlGet kvs "authors" "Unknown",
    description := tomlGet kvs "description" "No description",
    mod_loader := "forge",
    file_size := meta.size,
    file_hash := meta.hash,
    install_date := meta.mtimeIso }

/-- _parse_forge_mod (662-687): catches KeyError and UnicodeDecodeError;
an empty parsed dict (falsy mod_data) yields None. -/
def parse_forge_mod (a : Archive) : Except PyErr (Option InstalledMod) :=
  catches [PyErr.keyError, PyErr.unicodeError]
    ((readModsToml a).map (fun content =>
      let kvs := parse_simple_toml content
      if kvs.isEmpty then none else some (forgeRecord a.meta kvs)))

/-- The record _parse_legacy_mod builds from the first mcmod.info entry. -/
def legacyRecord (meta : FileMeta) (e : McmodEntry) : InstalledMod :=
  { filename := meta.name,
    name := e.name.getD meta.stem,
    version := e.version.getD "Unknown",
    mod_id := e.modid.getD meta.stem,
    author :=
      match e.authorList with
      | some (a :: _) => a
      | _ => "Unknown",
    description := e.description.getD "No description",
    mod_loader := "forge",
    file_size := meta.size,
    file_hash := meta.hash,
    install_date := meta.mtimeIso }

/-- _parse_legacy_mod (689-711): catches KeyError and JSONDecodeError; a
non-array value or an empty array yields None. -/
def parse_legacy_mod (a : Archive) : Except PyErr (Option InstalledMod) :=
  catches [PyErr.keyError, PyErr.jsonError]
    ((readMcmodInfo a).map (fun j =>
      match j with
      | McmodJson.notList => none
      | McmodJson.arr [] => none
      | McmodJson.arr (e :: _) => some (legacyRecord a.meta e)))

/-- _create_fallback_mod (726-740): filename-derived record. -/
def create_fallback_mod (meta : FileMeta) : InstalledMod :=
  { filename := meta.name,
    name := meta.stem,
    version := "Unknown",
    mod_id := lowerStr meta.stem,
    author := "Unknown",
    description := "No description available",
    mod_loader := "unknown",
    file_size := meta.size,
    file_hash := meta.hash,
    install_date := meta.mtimeIso }

/-- The body of the with-block of parse_mod_file (611-625): first parsed
record wins; an uncaught exception from a helper propagates. -/
def parse_chain (a : Archive) : Except PyErr (Option InstalledMod) :=
  match parse_fabric_mod a with
  | Except.error e => Except.error e
  | Except.ok (some m) => Except.ok (some m)
  | Except.ok none =>
    match parse_forge_mod a with
    | Except.error e => Except.error e
    | Except.ok (some m) => Except.ok (some m)
    | Except.ok none => parse_legacy_mod a

/-- parse_mod_file (607-631): a failed zip open or any exception escaping
the chain lands in the outer except and, like a chain that produced no
record, falls through to the filename fallback. -/
def parse_mod_file (a : Archive) : InstalledMod :=
  let body := if a.zipOk then parse_chain a else Except.error PyErr.otherErr
  match body with
  | Except.ok (some m) => m
  | _ => create_fallback_mod a.meta

/-! ## Installed-state rescan (src/mcmod/cli.py, lines 840-859, 915-973)

get_installed_mods scans mod_dir.glob("*.jar"), parses each file through
the extractor, and calls save_installed_mods_record (which replaces the
persisted file wholly) -- but only on the path reached when the glob found
at least one file: a missing directory, an unreadable directory, a failed
glob, and an empty glob each return [] before the save line.  The
embedding returns (the returned list, the persisted record after the
call). -/

structure ScanEnv where
  dirExists : Bool
  dirReadable : Bool
  globOk : Bool
  files : List Archive
deriving DecidableEq, Repr

def get_installed_mods (env : ScanEnv) (persisted : List InstalledMod) :
    List InstalledMod × List InstalledMod :=
  if env.dirExists = false then ([], persisted)
  else if env.dirReadable = false then ([], persisted)
  else if env.globOk = false then ([], persisted)
  else if env.files.isEmpty then ([], persisted)
  else
    let installed := env.files.map parse_mod_file
    (installed, installed)

/-! ## Download and verification engine (src/qwikee.py, lines 394-482)

QwikeeInstaller.download_file is embedded over explicit file state: the
optional byte content at the final destination and at the .tmp path, plus
the HTTP response the session returns for this request.  Bytes are lists
of naturals; the SHA-1 of verify_file_hash is an arbitrary function
parameter, since only equality of digests matters.  Python truthiness of
the optional expected size and hash is modelled exactly: None and 0 (resp.
None and "") are falsy. -/

structure HttpResponse where
  ok : Bool
  status : Nat
  body : List Nat
deriving DecidableEq, Repr

/-- Python `if expected_size:` -- None and 0 are both falsy. -/
def truthySize : Option Nat → Bool
  | none => false
  | some n => n != 0

/-- Python `if expected_hash:` -- None and "" are both falsy. -/
def truthyHash : Option String → Bool
  | none => false
  | some s => s != ""

/-- verify_file_hash (470-482): compares the computed digest with the
expected one, case-insensitively. -/
def verify_file_hash (hashFn : List Nat → String) (content : List Nat)
    (expected : String) : Bool :=
  lowerStr (hashFn content) == lowerStr expected

/-- The bytes in the temp file after the transfer loop (423-448): when a
Range header was sent (temp file existed) and the server answered 206 the
chunks are appended to the existing temp bytes, otherwise the temp file is
rewritten from scratch. -/
def resumed_content (temp : Option (List Nat)) (resp : HttpResponse) : List Nat :=
  if temp.isSome && (resp.status == 206) then temp.getD [] ++ resp.body
  else resp.body

structure FetchOutcome where
  result : Bool
  dest : Option (List Nat)
  temp : Option (List Nat)
  networkUsed : Bool
deriving DecidableEq, Repr

/-- download_file (394-468).  The early-exit check (402-411): an existing
destination file returns True without any network call when the (truthy)
expected size matches its length and either no (truthy) hash is known or
the hash verifies; a failed hash verification there falls through to the
transfer.  After the transfer, a (truthy) expected size that differs from
the temp file's length returns False -- the temp file stays on disk; a
(truthy) expected hash that fails verification returns False likewise;
otherwise the temp file is renamed onto the destination and True is
returned.  A failed request (raise_for_status) returns False with both
files untouched. -/
def download_file (hashFn : List Nat → String) (expected_size : Option Nat)
    (expected_hash : Option String) (dest temp : Option (List Nat))
    (resp : HttpResponse) : FetchOutcome :=
  let satisfied : Bool :=
    match dest with
    | some content =>
      truthySize expected_size && (content.length == expected_size.getD 0) &&
        (if truthyHash expected_hash then
          verify_file_hash hashFn content (expected_hash.getD "")
         else true)
    | none => false
  if satisfied then
    { result := true, dest := dest, temp := temp, networkUsed := false }
  else if ¬resp.ok then
    { result := false, dest := dest, temp := temp, networkUsed := true }
  else
    let newTemp := resumed_content temp resp
    if truthySize expected_size && (newTemp.length != expected_size.getD 0) then
      { result := false, dest := dest, temp := some newTemp, networkUsed := true }
    else if truthyHash expected_hash &&
        !verify_file_hash hashFn newTemp (expected_hash.getD "") then
      { result := false, dest := dest, temp := some newTemp, networkUsed := true }
    else
      { result := true, dest := some newTemp, temp := none, networkUsed := true }

/-! ## Staged-install step (src/mcmod/cli.py, lines 2113-2145)

One iteration of the install loop of install_staged_mods: download the
body, write it at mod_path, then -- when the staged descriptor carries a
(truthy) hash and FileUtils.calculate_file_hash returned a (truthy) digest
differing from it -- print a hash-mismatch warning and continue; the mod
still counts as successfully installed and the file stays in place.  An
HTTP error counts the mod as failed with nothing written. -/

structure InstallStep where
  success : Bool
  warned : Bool
  destFile : Option (List Nat)
deriving DecidableEq, Repr

def install_one (hashFn : List Nat → String) (file_hash : String)
    (resp : HttpResponse) : InstallStep :=
  if ¬resp.ok then { success := false, warned := false, destFile := none }
  else
    let written := resp.body
    let calculated := hashFn written
    let warned := (file_hash != "") && (calculated != "") && (calculated != file_hash)
    { success := true, warned := warned, destFile := some written }

/-! ## Batch registry resolver (src/mcmod/cli.py, lines 1034-1135, 1286-1384)

The Modrinth registry is embedded as three total functions: project by id
(None models the 404 / error paths of get_mod_by_id), ranked search hits,
and the raw version list of a project.  get_mod_versions filters the raw
versions to those compatible with the configured game version and loader.
process_mod_names resolves each name: by id first, else by the top search
hit; a name whose project is missing, whose search yields nothing, or
whose project has no compatible release with files is appended to the
failed list -- a bare string each time. -/

structure VersionFile where
  url : String
  filename : String
  size : Option Int
  primary : Bool
  sha256 : Option String
deriving DecidableEq, Repr

structure VersionData where
  vid : String
  game_versions : List String
  loaders : List String
  files : List VersionFile
  version_number : Option String
  date_published : Option String
deriving DecidableEq, Repr

structure ProjectData where
  pid : String
  title : String
  description : Option String
  team : Option String
  downloads : Option Int
  categories : Option (List String)
deriving DecidableEq, Repr

structure SearchHit where
  project_id : String
deriving DecidableEq, Repr

structure Registry where
  byId : String → Option ProjectData
  searchHits : String → List SearchHit
  projectVersions : String → List VersionData

/-- get_mod_versions (1110-1135): fetch all versions of the project and
keep those whose game_versions contain the configured Minecraft version
and whose loaders contain the configured loader. -/
def get_mod_versions (reg : Registry) (mod_id mc loader : String) :
    List VersionData :=
  (reg.projectVersions mod_id).filter
    (fun v => decide (mc ∈ v.game_versions) && decide (loader ∈ v.loaders))

/-- create_mod_info_from_api_data (1330-1371): None when no compatible
version or the newest compatible version has no files; otherwise builds
the descriptor from the primary (or first) file of that version. -/
def create_mod_info_from_api_data (reg : Registry) (mc loader : String)
    (p : ProjectData) : Option ModInfo :=
  match get_mod_versions reg p.pid mc loader with
  | [] => none
  | latest :: _ =>
    match latest.files with
    | [] => none
    | f0 :: _ =>
      let primary := (latest.files.find? (fun f => f.primary)).getD f0
      some { id := p.pid,
             name := p.title,
             description := p.description.getD "No description",
             author := p.team.getD "Unknown",
             downloads := p.downloads.getD 0,
             categories := p.categories.getD [],
             game_versions := latest.game_versions,
             download_url := primary.url,
             filename := primary.filename,
             mod_loader := loader,
             file_size := primary.size.getD 0,
             project_url := "https://modrinth.com/mod/" ++ p.pid,
             version_id := latest.vid,
             version_number := latest.version_number.getD "",
             file_hash := (primary.sha256).getD "",
             last_updated := latest.date_published.getD "" }

/-- create_mod_info_from_search_result (1373-1384): refetch the project by
the hit's id and delegate; a missing project yields None. -/
def create_mod_info_from_search_result (reg : Registry) (mc loader : String)
    (hit : SearchHit) : Option ModInfo :=
  match reg.byId hit.project_id with
  | none => none
  | some p => create_mod_info_from_api_data reg mc loader p

/-- process_mod_names (1286-1328): per name, try the project-by-id
endpoint, else the first search hit; on any failure the bare name joins
the failed list. -/
def process_mod_names (reg : Registry) (mc loader : String)
    (names : List String) : List ModInfo × List String :=
  names.foldl (fun acc name =>
    match reg.byId name with
    | some p =>
      match create_mod_info_from_api_data reg mc loader p with
      | some mi => (acc.1 ++ [mi], acc.2)
      | none => (acc.1, acc.2 ++ [name])
    | none =>
      match reg.searchHits name with
      | [] => (acc.1, acc.2 ++ [name])
      | hit :: _ =>
        match create_mod_info_from_search_result reg mc loader hit with
        | some mi => (acc.1 ++ [mi], acc.2)
        | none => (acc.1, acc.2 ++ [name])) ([], [])

/-! ## Concrete sample values used by witnesses and counterexamples -/

def sampleMod (i : String) : ModInfo :=
  { id := i, name := "Sample Mod", description := "d", author := "a",
    downloads := 1, categories := [], game_versions := ["1.20.1"],
    download_url := "https://cdn.example/m.jar", filename := "m.jar" }

def sampleMeta : FileMeta :=
  { name := "m.jar", stem := "m", size := 3, mtimeIso := "2024-01-01T00:00:00",
    hash := "abc" }

def sampleInstalled : InstalledMod :=
  { filename := "m.jar", name := "m", version := "1.0", mod_id := "m",
    author := "a", description := "d", mod_loader := "fabric", file_size := 3 }

/-- Archive whose fabric.mod.json holds bytes that do not decode
(UnicodeDecodeError inside json.load) while META-INF/mods.toml is present
and parses to a non-empty dict. -/
def cxArchive : Archive :=
  { meta := sampleMeta, zipOk := true,
    fabric := some JsonRead.badEncoding,
    modsToml := some (TomlRead.ok "displayName = Foo\nversion = 1.0\nmodId = foo"),
    mcmodInfo := none }

/-- A readable directory whose glob finds no jar file. -/
def envEmpty : ScanEnv :=
  { dirExists := true, dirReadable := true, globOk := true, files := [] }

/-- A readable directory holding one jar file. -/
def envOne : ScanEnv :=
  { dirExists := true, dirReadable := true, globOk := true,
    files := [{ meta := sampleMeta, zipOk := false, fabric := none,
                modsToml := none, mcmodInfo := none }] }

def sampleProject : ProjectData :=
  { pid := "mproj", title := "M", description := none, team := none,
    downloads := none, categories := none }

/-- A registry in which the reference resolves to a project that has zero
compatible releases. -/
def regIncompatible : Registry :=
  { byId := fun name => if name == "m" then some sampleProject else none,
    searchHits := fun _ => [],
    projectVersions := fun _ =>
      [{ vid := "v1", game_versions := ["1.19"], loaders := ["forge"],
         files := [], version_number := none, date_published := none }] }

/-- A registry in which the reference matches no project at all. -/
def regAbsent : Registry :=
  { byId := fun _ => none,
    searchHits := fun _ => [],
    projectVersions := fun _ => [] }

/-- A digest function for witnesses: a string of one x per input byte. -/
def lenHash (content : List Nat) : String :=
  String.mk (List.replicate content.length 'x')

/-! ## Helper lemmas -/

theorem from_dict_to_dict (m : ModInfo) :
    ModInfo.from_dict (ModInfo.to_dict m) = some m := rfl

theorem mapM_from_to (mods : List ModInfo) :
    fromDictAll (mods.map ModInfo.to_dict) = some mods := by
  induction mods with
  | nil => rfl
  | cons m rest ih => simp [fromDictAll, from_dict_to_dict, ih]

theorem filter_length_lt_iff_any (staged : List ModInfo) (mod_id : String) :
    ((staged.filter (fun m => m.id != mod_id)).length < staged.length) ↔
      staged.any (fun m => m.id == mod_id) = true := by
  induction staged with
  | nil => simp
  | cons m rest ih =>
    by_cases h : m.id = mod_id
    · simp only [List.filter_cons, List.any_cons, h, bne_self_eq_false,
        Bool.false_eq_true, if_false, List.length_cons, beq_self_eq_true,
        Bool.true_or, iff_true]
      exact Nat.lt_succ_of_le (List.length_filter_le _ _)
    · have hb : (m.id != mod_id) = true := by simp [h]
      have he : (m.id == mod_id) = false := by simp [h]
      simp only [List.filter_cons, List.any_cons, hb, if_true,
        List.length_cons, he, Bool.false_or, Nat.succ_lt_succ_iff]
      exact ih

theorem freshAt_cons_zero (ids : List String) (m : ModInfo) (rest : List ModInfo) :
    freshAt ids (m :: rest) 0 ↔ m.id ∉ ids := by
  unfold freshAt
  simp

theorem freshAt_cons_succ (ids : List String) (m : ModInfo) (rest : List ModInfo)
    (j : Nat) :
    freshAt ids (m :: rest) (j + 1) ↔
      ((rest.getD j default).id ∉ ids ∧ m.id ≠ (rest.getD j default).id ∧
        ∀ k, k < j → (rest.getD k default).id ≠ (rest.getD j default).id) := by
  unfold freshAt
  rw [List.getD_cons_succ]
  constructor
  · rintro ⟨h1, h2⟩
    refine ⟨h1, ?_, ?_⟩
    · have h0 := h2 0 (Nat.succ_pos j)
      simpa using h0
    · intro k hk
      have hs := h2 (k + 1) (Nat.succ_lt_succ hk)
      simpa using hs
  · rintro ⟨h1, h2, h3⟩
    refine ⟨h1, ?_⟩
    intro k hk
    cases k with
    | zero => simpa using h2
    | succ k2 =>
      rw [List.getD_cons_succ]
      exact h3 k2 (Nat.lt_of_succ_lt_succ hk)

theorem stageBatch_sum (mods : List ModInfo) : ∀ ids : List String,
    (stageBatch ids mods).1.length + (stageBatch ids mods).2 = mods.length := by
  induction mods with
  | nil => intro ids; rfl
  | cons m rest ih =>
    intro ids
    by_cases hmem : m.id ∈ ids
    · simp only [stageBatch, if_pos hmem]
      have := ih ids
      simp only [List.length_cons]
      omega
    · simp only [stageBatch, if_neg hmem]
      have := ih (m.id :: ids)
      simp only [List.length_cons]
      omega

theorem stageBatch_count (mods : List ModInfo) : ∀ ids : List String,
    (stageBatch ids mods).1.length =
      (List.range mods.length).countP (fun i => decide (freshAt ids mods i)) := by
  induction mods with
  | nil => intro ids; rfl
  | cons m rest ih =>
    intro ids
    rw [List.length_cons, List.range_succ_eq_map, List.countP_cons,
      List.countP_map]
    by_cases hmem : m.id ∈ ids
    · have hp0 : decide (freshAt ids (m :: rest) 0) = false := by
        rw [decide_eq_false_iff_not, freshAt_cons_zero]
        simpa using hmem
      have hps : ((fun i => decide (freshAt ids (m :: rest) i)) ∘ Nat.succ) =
          (fun j => decide (freshAt ids rest j)) := by
        funext j
        simp only [Function.comp_apply]
        rw [decide_eq_decide, freshAt_cons_succ]
        unfold freshAt
        constructor
        · rintro ⟨h1, _, h3⟩
          exact ⟨h1, h3⟩
        · rintro ⟨h1, h3⟩
          exact ⟨h1, fun he => h1 (he ▸ hmem), h3⟩
      rw [hps, hp0]
      simp only [stageBatch, if_pos hmem]
      rw [ih ids]
      simp
    · have hp0 : decide (freshAt ids (m :: rest) 0) = true := by
        rw [decide_eq_true_eq, freshAt_cons_zero]
        exact hmem
      have hps : ((fun i => decide (freshAt ids (m :: rest) i)) ∘ Nat.succ) =
          (fun j => decide (freshAt (m.id :: ids) rest j)) := by
        funext j
        simp only [Function.comp_apply]
        rw [decide_eq_decide, freshAt_cons_succ]
        unfold freshAt
        constructor
        · rintro ⟨h1, h2, h3⟩
          refine ⟨?_, h3⟩
          rw [List.mem_cons]
          rintro (he | hi)
          · exact h2 he.symm
          · exact h1 hi
        · rintro ⟨h1, h3⟩
          rw [List.mem_cons] at h1
          push_neg at h1
          exact ⟨h1.2, fun he => h1.1 he.symm, h3⟩
      rw [hps, hp0]
      simp only [stageBatch, if_neg hmem, List.length_cons]
      rw [ih (m.id :: ids)]
      simp

/-! ## Claim theorems -/

/-- C6: adding the same descriptor id twice leaves the staging set with
exactly one entry bearing that id; the second add changes nothing, is
reported as a duplicate (returns False), and does not raise.  Holds for
every staging set satisfying the data-model invariant that an id occurs
at most once. -/
theorem claim_c6 (mod : ModInfo) (staged : List ModInfo)
    (hinv : staged.countP (fun m => m.id == mod.id) ≤ 1) :
    (add_to_staging mod (add_to_staging mod staged).2).1 = false ∧
    (add_to_staging mod (add_to_staging mod staged).2).2 =
      (add_to_staging mod staged).2 ∧
    (add_to_staging mod (add_to_staging mod staged).2).2.countP
      (fun m => m.id == mod.id) = 1 := by
  by_cases h : staged.any (fun m => m.id == mod.id) = true
  · have h1 : add_to_staging mod staged = (false, staged) := by
      simp [add_to_staging, h]
    have hpos : 0 < staged.countP (fun m => m.id == mod.id) := by
      rw [List.countP_pos_iff]
      rcases List.any_eq_true.mp h with ⟨x, hx, hpx⟩
      exact ⟨x, hx, hpx⟩
    rw [h1]
    refine ⟨by simp [add_to_staging, h], by simp [add_to_staging, h], ?_⟩
    have h2 : (add_to_staging mod (false, staged).2).2 = staged := by
      simp [add_to_staging, h]
    rw [h2]
    omega
  · have h0 : staged.countP (fun m => m.id == mod.id) = 0 := by
      rw [List.countP_eq_zero]
      intro a ha
      exact fun hpa => h (List.any_eq_true.mpr ⟨a, ha, hpa⟩)
    have h1 : add_to_staging mod staged = (true, staged ++ [mod]) := by
      simp [add_to_staging, h]
    have h2 : (staged ++ [mod]).any (fun m => m.id == mod.id) = true := by
      simp [List.any_append]
    rw [h1]
    refine ⟨by simp [add_to_staging, h2], by simp [add_to_staging, h2], ?_⟩
    simp [add_to_staging, h2, List.countP_append, h0]

theorem claim_c6_witness :
    ([] : List ModInfo).countP (fun m => m.id == (sampleMod "a").id) ≤ 1 ∧
    ((add_to_staging (sampleMod "a")
        (add_to_staging (sampleMod "a") []).2).1 = false ∧
     (add_to_staging (sampleMod "a")
        (add_to_staging (sampleMod "a") []).2).2 =
       (add_to_staging (sampleMod "a") []).2 ∧
     (add_to_staging (sampleMod "a")
        (add_to_staging (sampleMod "a") []).2).2.countP
       (fun m => m.id == (sampleMod "a").id) = 1) :=
  ⟨by decide, claim_c6 (sampleMod "a") [] (by decide)⟩

/-- C8: persisting a staged list and reloading it reproduces the same
sequence, field for field. -/
theorem claim_c8 (mods : List ModInfo) :
    get_staged_mods (some (save_staged_mods mods)) = mods := by
  simp [get_staged_mods, save_staged_mods, mapM_from_to]

/-- C10: remove deletes every staged entry with the given id and persists
exactly when one existed; on a miss it returns False, does not rewrite the
file, and leaves the staged list unchanged. -/
theorem claim_c10 (mod_id : String) (staged : List ModInfo) :
    (remove_from_staging mod_id staged).1 =
      staged.any (fun m => m.id == mod_id) ∧
    (remove_from_staging mod_id staged).2.2 =
      staged.any (fun m => m.id == mod_id) ∧
    (remove_from_staging mod_id staged).2.1.countP
      (fun m => m.id == mod_id) = 0 ∧
    (staged.any (fun m => m.id == mod_id) = true →
      (remove_from_staging mod_id staged).2.1 =
        staged.filter (fun m => m.id != mod_id)) ∧
    (staged.any (fun m => m.id == mod_id) = false →
      (remove_from_staging mod_id staged).2.1 = staged) := by
  by_cases h : staged.any (fun m => m.id == mod_id) = true
  · have hlt := (filter_length_lt_iff_any staged mod_id).mpr h
    have hr : remove_from_staging mod_id staged =
        (true, staged.filter (fun m => m.id != mod_id), true) := by
      simp [remove_from_staging, hlt]
    rw [hr, h]
    refine ⟨rfl, rfl, ?_, fun _ => rfl, fun hc => by simp at hc⟩
    rw [List.countP_eq_zero]
    intro a ha hpa
    have := (List.mem_filter.mp ha).2
    simp only [bne_iff_ne, ne_eq] at this
    exact this (by simpa using hpa)
  · have hax : staged.any (fun m => m.id == mod_id) = false := by
      simpa using h
    have hnlt : ¬((staged.filter (fun m => m.id != mod_id)).length <
        staged.length) := by
      rw [filter_length_lt_iff_any]
      simp [hax]
    have hr : remove_from_staging mod_id staged = (false, staged, false) := by
      simp [remove_from_staging, hnlt]
    rw [hr, hax]
    refine ⟨rfl, rfl, ?_, fun hc => by simp at hc, fun _ => rfl⟩
    rw [List.countP_eq_zero]
    intro a ha hpa
    exact h (List.any_eq_true.mpr ⟨a, ha, hpa⟩)

/-- C7: the batch add returns (added, skipped) summing to the batch
length; an element counts as added exactly when its id is neither already
staged nor carried by an earlier element of the batch (added equals the
number of fresh indices); and a batch carrying one id three times against
a set already holding it yields added = 0, duplicate = 3 with the staged
list unchanged, consistent with repeated single adds. -/
theorem claim_c7 (mods staged : List ModInfo) :
    (add_mods_to_staging mods staged).1.1 +
        (add_mods_to_staging mods staged).1.2 = mods.length ∧
    (add_mods_to_staging mods staged).1.1 =
      (List.range mods.length).countP
        (fun i => decide (freshAt (staged.map (fun m => m.id)) mods i)) ∧
    (∀ a b c : ModInfo, b.id = a.id → c.id = a.id →
      staged.any (fun m => m.id == a.id) = true →
      add_mods_to_staging [a, b, c] staged = ((0, 3), staged)) := by
  refine ⟨?_, ?_, ?_⟩
  · show (stageBatch (staged.map (fun m => m.id)) mods).1.length +
        (stageBatch (staged.map (fun m => m.id)) mods).2 = mods.length
    exact stageBatch_sum mods (staged.map (fun m => m.id))
  · show (stageBatch (staged.map (fun m => m.id)) mods).1.length =
      (List.range mods.length).countP
        (fun i => decide (freshAt (staged.map (fun m => m.id)) mods i))
    exact stageBatch_count mods (staged.map (fun m => m.id))
  intro a b c hb hc hany
  have hmem : a.id ∈ staged.map (fun m => m.id) := by
    rcases List.any_eq_true.mp hany with ⟨x, hx, hpx⟩
    have hpx2 : x.id = a.id := by simpa using hpx
    exact List.mem_map.mpr ⟨x, hx, hpx2⟩
  have hbm : b.id ∈ staged.map (fun m => m.id) := hb ▸ hmem
  have hcm : c.id ∈ staged.map (fun m => m.id) := hc ▸ hmem
  simp [add_mods_to_staging, stageBatch, hmem, hbm, hcm]

theorem claim_c7_witness :
    (sampleMod "a").id = (sampleMod "a").id ∧
    [sampleMod "a"].any (fun m => m.id == (sampleMod "a").id) = true ∧
    add_mods_to_staging [sampleMod "a", sampleMod "a", sampleMod "a"]
      [sampleMod "a"] = ((0, 3), [sampleMod "a"]) :=
  ⟨rfl, by decide,
    (claim_c7 [sampleMod "a", sampleMod "a", sampleMod "a"]
      [sampleMod "a"]).2.2 (sampleMod "a") (sampleMod "a") (sampleMod "a")
      rfl rfl (by decide)⟩

theorem claim_c10_witness :
    ([sampleMod "a"].any (fun m => m.id == "a") = true ∧
      (remove_from_staging "a" [sampleMod "a"]).2.1 =
        [sampleMod "a"].filter (fun m => m.id != "a")) ∧
    ([sampleMod "a"].any (fun m => m.id == "b") = false ∧
      (remove_from_staging "b" [sampleMod "a"]).2.1 = [sampleMod "a"]) :=
  ⟨⟨by decide, (claim_c10 "a" [sampleMod "a"]).2.2.2.1 (by decide)⟩,
   ⟨by decide, (claim_c10 "b" [sampleMod "a"]).2.2.2.2 (by decide)⟩⟩

theorem parse_mod_file_eq (a : Archive) :
    parse_mod_file a =
      (if a.zipOk then
        match parse_fabric_mod a with
        | Except.error _ => create_fallback_mod a.meta
        | Except.ok (some m) => m
        | Except.ok none =>
          match parse_forge_mod a with
          | Except.error _ => create_fallback_mod a.meta
          | Except.ok (some m) => m
          | Except.ok none =>
            match parse_legacy_mod a with
            | Except.error _ => create_fallback_mod a.meta
            | Except.ok (some m) => m
            | Except.ok none => create_fallback_mod a.meta
      else create_fallback_mod a.meta) := by
  cases hz : a.zipOk
  · simp [parse_mod_file, hz]
  · rcases hf : parse_fabric_mod a with e | (_ | m)
    · simp [parse_mod_file, parse_chain, hz, hf]
    · rcases hg : parse_forge_mod a with e2 | (_ | m2)
      · simp [parse_mod_file, parse_chain, hz, hf, hg]
      · rcases hl : parse_legacy_mod a with e3 | (_ | m3) <;>
          simp [parse_mod_file, parse_chain, hz, hf, hg, hl]
      · simp [parse_mod_file, parse_chain, hz, hf, hg]
    · simp [parse_mod_file, parse_chain, hz, hf]

/-- C5 counterexample: an archive whose fabric.mod.json bytes do not
decode (a "wrong encoding" failure of the first format) while its
META-INF/mods.toml is present and parses.  The claim says the forge format
is still attempted and would win; the code instead lands in the catch-all
around the whole chain and returns the filename fallback. -/
theorem claim_c5_counterexample :
    parse_mod_file cxArchive = create_fallback_mod sampleMeta ∧
    parse_forge_mod cxArchive = Except.ok (some
      { filename := "m.jar", name := "Foo", version := "1.0",
        mod_id := "foo", author := "Unknown",
        description := "No description", mod_loader := "forge",
        file_size := 3, file_hash := "abc",
        install_date := "2024-01-01T00:00:00" }) ∧
    (parse_mod_file cxArchive).mod_loader = "unknown" := by
  refine ⟨rfl, ?_, rfl⟩
  rfl

/-- C5 amended: a failure of one format attempt disqualifies only that
format when it is of a kind that attempt catches -- a missing entry or
malformed JSON for the two JSON formats (conjuncts 1 and 3), a missing
entry, undecodable bytes, or content yielding an empty or unusable value
for the TOML format (conjunct 2); the chain then behaves exactly as if
that entry were absent.  An error kind a format does not catch -- e.g.
undecodable bytes in fabric.mod.json -- aborts the remaining attempts and
yields the filename fallback directly (conjunct 4).  A record is returned
in every case: when no format contributes, it is the fallback record
(conjunct 5). -/
theorem claim_c5_amended (a : Archive) :
    ((a.fabric = none ∨ a.fabric = some JsonRead.malformed) →
      parse_mod_file a = parse_mod_file { a with fabric := none }) ∧
    ((a.modsToml = none ∨ a.modsToml = some TomlRead.badEncoding ∨
        (∃ c, a.modsToml = some (TomlRead.ok c) ∧ parse_simple_toml c = [])) →
      parse_mod_file a = parse_mod_file { a with modsToml := none }) ∧
    ((a.mcmodInfo = none ∨ a.mcmodInfo = some JsonRead.malformed ∨
        a.mcmodInfo = some JsonRead.badEncoding ∨
        a.mcmodInfo = some (JsonRead.ok McmodJson.notList) ∨
        a.mcmodInfo = some (JsonRead.ok (McmodJson.arr []))) →
      parse_mod_file a = parse_mod_file { a with mcmodInfo := none }) ∧
    (a.zipOk = true → a.fabric = some JsonRead.badEncoding →
      parse_mod_file a = create_fallback_mod a.meta) ∧
    parse_mod_file ⟨a.meta, a.zipOk, none, none, none⟩ =
      create_fallback_mod a.meta := by
  refine ⟨?_, ?_, ?_, ?_, ?_⟩
  · intro h
    have hf : parse_fabric_mod a = Except.ok none := by
      rcases h with h | h <;>
        simp [parse_fabric_mod, readFabricJson, h, catches, Except.map]
    have hf2 : parse_fabric_mod { a with fabric := none } = Except.ok none :=
      rfl
    have hg2 : parse_forge_mod { a with fabric := none } =
        parse_forge_mod a := rfl
    have hl2 : parse_legacy_mod { a with fabric := none } =
        parse_legacy_mod a := rfl
    rw [parse_mod_file_eq a, parse_mod_file_eq { a with fabric := none },
      hf, hf2, hg2, hl2]
  · intro h
    have hg : parse_forge_mod a = Except.ok none := by
      rcases h with h | h | ⟨c, h, hc⟩
      · simp [parse_forge_mod, readModsToml, h, catches, Except.map]
      · simp [parse_forge_mod, readModsToml, h, catches, Except.map]
      · simp [parse_forge_mod, readModsToml, h, catches, List.isEmpty_iff,
          hc, Except.map]
    have hg2 : parse_forge_mod { a with modsToml := none } =
        Except.ok none := rfl
    have hf2 : parse_fabric_mod { a with modsToml := none } =
        parse_fabric_mod a := rfl
    have hl2 : parse_legacy_mod { a with modsToml := none } =
        parse_legacy_mod a := rfl
    rw [parse_mod_file_eq a, parse_mod_file_eq { a with modsToml := none },
      hg, hg2, hf2, hl2]
  · intro h
    have hl : parse_legacy_mod a = Except.ok none ∨
        parse_legacy_mod a = Except.error PyErr.unicodeError := by
      rcases h with h | h | h | h | h
      · exact Or.inl (by
          simp [parse_legacy_mod, readMcmodInfo, h, catches, Except.map])
      · exact Or.inl (by
          simp [parse_legacy_mod, readMcmodInfo, h, catches, Except.map])
      · exact Or.inr (by
          simp [parse_legacy_mod, readMcmodInfo, h, catches, Except.map])
      · exact Or.inl (by
          simp [parse_legacy_mod, readMcmodInfo, h, catches, Except.map])
      · exact Or.inl (by
          simp [parse_legacy_mod, readMcmodInfo, h, catches, Except.map])
    have hl2 : parse_legacy_mod { a with mcmodInfo := none } =
        Except.ok none := rfl
    have hf2 : parse_fabric_mod { a with mcmodInfo := none } =
        parse_fabric_mod a := rfl
    have hg2 : parse_forge_mod { a with mcmodInfo := none } =
        parse_forge_mod a := rfl
    rcases hl with hl | hl <;>
      rw [parse_mod_file_eq a, parse_mod_file_eq { a with mcmodInfo := none },
        hl, hl2, hf2, hg2]
  · intro hz hf
    have hfe : parse_fabric_mod a = Except.error PyErr.unicodeError := by
      simp [parse_fabric_mod, readFabricJson, hf, catches, Except.map]
    rw [parse_mod_file_eq a, hfe]
    simp [hz]
  · rw [parse_mod_file_eq]
    cases hz : a.zipOk <;>
      simp [hz, parse_fabric_mod, parse_forge_mod, parse_legacy_mod,
        readFabricJson, readModsToml, readMcmodInfo, catches, Except.map]

theorem claim_c5_amended_witness :
    ((some JsonRead.malformed : Option (JsonRead FabricData)) =
        some JsonRead.malformed ∧
      parse_mod_file { cxArchive with fabric := some JsonRead.malformed } =
        parse_mod_file { cxArchive with fabric := none }) ∧
    (cxArchive.zipOk = true ∧ cxArchive.fabric = some JsonRead.badEncoding ∧
      parse_mod_file cxArchive = create_fallback_mod cxArchive.meta) :=
  ⟨⟨rfl, (claim_c5_amended { cxArchive with fabric := some JsonRead.malformed }).1
      (Or.inr rfl)⟩,
   ⟨rfl, rfl, (claim_c5_amended cxArchive).2.2.2.1 rfl rfl⟩⟩

/-- C2 counterexample: a rescan that finds zero archive files returns []
but leaves the previously persisted non-empty snapshot untouched -- the
early return on an empty glob precedes the save call. -/
theorem claim_c2_counterexample :
    (get_installed_mods envEmpty [sampleInstalled]).1 = [] ∧
    (get_installed_mods envEmpty [sampleInstalled]).2 = [sampleInstalled] ∧
    [sampleInstalled] ≠ ([] : List InstalledMod) := by
  refine ⟨rfl, rfl, ?_⟩
  decide

/-- C2 amended: when the scan finds at least one archive file the
persisted snapshot is wholly replaced by the freshly extracted list,
independent of its prior contents; a scan that finds zero archive files
(or cannot list the directory) returns the empty list without rewriting
the persisted snapshot. -/
theorem claim_c2_amended :
    (∀ (env : ScanEnv) (persisted : List InstalledMod),
      env.dirExists = true → env.dirReadable = true → env.globOk = true →
      env.files ≠ [] →
      get_installed_mods env persisted =
        (env.files.map parse_mod_file, env.files.map parse_mod_file)) ∧
    (∀ (env : ScanEnv) (persisted : List InstalledMod),
      env.files = [] →
      (get_installed_mods env persisted).2 = persisted) := by
  constructor
  · intro env persisted h1 h2 h3 h4
    have hne : env.files.isEmpty = false := by
      cases hf : env.files with
      | nil => exact absurd hf h4
      | cons x l => simp
    simp [get_installed_mods, h1, h2, h3, hne]
  · intro env persisted h
    obtain ⟨de, dr, go, files⟩ := env
    have h2 : files = [] := h
    subst h2
    cases de <;> cases dr <;> cases go <;> rfl

theorem claim_c2_amended_witness :
    (envOne.dirExists = true ∧ envOne.files ≠ [] ∧
      get_installed_mods envOne [] =
        (envOne.files.map parse_mod_file, envOne.files.map parse_mod_file)) ∧
    (envEmpty.files = [] ∧
      (get_installed_mods envEmpty [sampleInstalled]).2 = [sampleInstalled]) :=
  ⟨⟨rfl, by decide, claim_c2_amended.1 envOne [] rfl rfl rfl (by decide)⟩,
   ⟨rfl, claim_c2_amended.2 envEmpty [sampleInstalled] rfl⟩⟩

/-- C1 counterexample: in QwikeeInstaller.download_file a transfer whose
computed hash differs from the known expected hash returns False -- a
failure, not a warning-carrying success -- and nothing is placed at the
destination (the bytes stay in the temp file). -/
theorem claim_c1_counterexample :
    download_file lenHash none (some "zzz") none none ⟨true, 200, [1, 2, 3]⟩ =
      { result := false, dest := none, temp := some [1, 2, 3],
        networkUsed := true } := rfl

/-- C1 amended: the warn-but-accept policy holds in the staged-install
loop of install_staged_mods -- a hash mismatch there yields a warned yet
successful install with the file retained at its destination (conjunct 1)
-- but not in QwikeeInstaller.download_file, where a hash mismatch makes
the fetch return failure, with nothing placed at the destination and the
transferred bytes left in the temp file (conjunct 2). -/
theorem claim_c1_amended :
    (∀ (hashFn : List Nat → String) (fh : String) (resp : HttpResponse),
      resp.ok = true → fh ≠ "" → hashFn resp.body ≠ "" →
      hashFn resp.body ≠ fh →
      install_one hashFn fh resp =
        { success := true, warned := true, destFile := some resp.body }) ∧
    (∀ (hashFn : List Nat → String) (eh : String) (temp : Option (List Nat))
        (resp : HttpResponse),
      resp.ok = true → eh ≠ "" →
      verify_file_hash hashFn (resumed_content temp resp) eh = false →
      download_file hashFn none (some eh) none temp resp =
        { result := false, dest := none,
          temp := some (resumed_content temp resp), networkUsed := true }) := by
  constructor
  · intro hashFn fh resp hok hfh hc hne
    simp [install_one, hok, hfh, hc, hne]
  · intro hashFn eh temp resp hok heh hv
    have hth : truthyHash (some eh) = true := by simp [truthyHash, heh]
    simp [download_file, hok, hth, truthySize, hv]

theorem claim_c1_witness :
    ((⟨true, 200, [1, 2, 3]⟩ : HttpResponse).ok = true ∧
      ("deadbeef" : String) ≠ "" ∧ lenHash [1, 2, 3] ≠ "" ∧
      lenHash [1, 2, 3] ≠ "deadbeef" ∧
      install_one lenHash "deadbeef" ⟨true, 200, [1, 2, 3]⟩ =
        { success := true, warned := true, destFile := some [1, 2, 3] }) ∧
    (verify_file_hash lenHash (resumed_content none ⟨true, 200, [1, 2]⟩)
        "zz" = false ∧
      download_file lenHash none (some "zz") none none ⟨true, 200, [1, 2]⟩ =
        { result := false, dest := none, temp := some [1, 2],
          networkUsed := true }) :=
  ⟨⟨rfl, by decide, by decide, by decide,
     claim_c1_amended.1 lenHash "deadbeef" ⟨true, 200, [1, 2, 3]⟩ rfl
       (by decide) (by decide) (by decide)⟩,
   ⟨by decide, claim_c1_amended.2 lenHash "zz" none ⟨true, 200, [1, 2]⟩ rfl
      (by decide) (by decide)⟩⟩

/-- C3 counterexample: a fully transferred temp file whose size differs
from the known expected size makes the fetch fail, but the temp file is
NOT discarded -- it remains on disk (first conjunct); and with a known
expected size of 0 the size check is skipped entirely and the mismatched
transfer succeeds (second conjunct). -/
theorem claim_c3_counterexample :
    download_file lenHash (some 5) none none none ⟨true, 200, [1, 2, 3]⟩ =
      { result := false, dest := none, temp := some [1, 2, 3],
        networkUsed := true } ∧
    download_file lenHash (some 0) none none none ⟨true, 200, [1, 2, 3]⟩ =
      { result := true, dest := some [1, 2, 3], temp := none,
        networkUsed := true } := ⟨rfl, rfl⟩

/-- C3 amended: when a known nonzero expected size differs from the size
of the fully transferred temp file, the fetch fails with the
size-mismatch reason; the temp file is retained on disk (available for a
later resume), not discarded.  A zero expected size is treated as
unknown and disables the check. -/
theorem claim_c3_amended (hashFn : List Nat → String) (n : Nat)
    (eh : Option String) (temp : Option (List Nat)) (resp : HttpResponse)
    (hn : n ≠ 0) (hok : resp.ok = true)
    (hmis : (resumed_content temp resp).length ≠ n) :
    download_file hashFn (some n) eh none temp resp =
      { result := false, dest := none,
        temp := some (resumed_content temp resp), networkUsed := true } := by
  have hts : truthySize (some n) = true := by simp [truthySize, hn]
  simp [download_file, hts, hok, hmis]

theorem claim_c3_witness :
    (5 : Nat) ≠ 0 ∧ (⟨true, 200, [1, 2]⟩ : HttpResponse).ok = true ∧
    (resumed_content none ⟨true, 200, [1, 2]⟩).length ≠ 5 ∧
    download_file lenHash (some 5) none none none ⟨true, 200, [1, 2]⟩ =
      { result := false, dest := none, temp := some [1, 2],
        networkUsed := true } :=
  ⟨by decide, rfl, by decide,
    claim_c3_amended lenHash 5 none none ⟨true, 200, [1, 2]⟩ (by decide) rfl
      (by decide)⟩

/-- C9 counterexample: a destination file of length 0 together with a
known expected size of 0 is not treated as already satisfied -- the
truthiness test skips the whole existence check and a network transfer is
performed. -/
theorem claim_c9_counterexample :
    download_file lenHash (some 0) none (some []) none ⟨true, 200, [9]⟩ =
      { result := true, dest := some [9], temp := none,
        networkUsed := true } ∧
    (download_file lenHash (some 0) none (some []) none
      ⟨true, 200, [9]⟩).networkUsed = true := ⟨rfl, rfl⟩

/-- C9 amended: when a file already exists at the destination whose
length equals the known NONZERO expected size and -- if a (truthy)
expected hash is known -- whose hash verifies, the fetch returns success
with both files untouched and no network call. -/
theorem claim_c9_amended (hashFn : List Nat → String) (n : Nat)
    (eh : Option String) (c : List Nat) (temp : Option (List Nat))
    (resp : HttpResponse) (hn : n ≠ 0) (hlen : c.length = n)
    (hh : truthyHash eh = true →
      verify_file_hash hashFn c (eh.getD "") = true) :
    download_file hashFn (some n) eh (some c) temp resp =
      { result := true, dest := some c, temp := temp,
        networkUsed := false } := by
  have hts : truthySize (some n) = true := by simp [truthySize, hn]
  have hcl : (c.length == n) = true := by simp [hlen]
  cases hth : truthyHash eh
  · simp [download_file, hts, hcl, hth]
  · simp [download_file, hts, hcl, hth, hh hth]

theorem claim_c9_witness :
    (1 : Nat) ≠ 0 ∧ ([7] : List Nat).length = 1 ∧
    download_file lenHash (some 1) none (some [7]) none ⟨true, 200, [1, 2]⟩ =
      { result := true, dest := some [7], temp := none,
        networkUsed := false } :=
  ⟨by decide, rfl,
    claim_c9_amended lenHash 1 none [7] none ⟨true, 200, [1, 2]⟩ (by decide)
      rfl (by intro h; simp [truthyHash] at h)⟩

/-- C4 counterexample: a reference matching a project with zero
compatible releases and a reference matching no project at all produce
exactly the same caller-visible result -- the bare name in the failed
list -- so the two failure modes are not distinguishable by the caller. -/
theorem claim_c4_counterexample :
    process_mod_names regIncompatible "1.20.1" "fabric" ["m"] = ([], ["m"]) ∧
    process_mod_names regAbsent "1.20.1" "fabric" ["m"] = ([], ["m"]) ∧
    process_mod_names regIncompatible "1.20.1" "fabric" ["m"] =
      process_mod_names regAbsent "1.20.1" "fabric" ["m"] ∧
    regIncompatible.byId "m" = some sampleProject ∧
    regAbsent.byId "m" = none := ⟨rfl, rfl, rfl, rfl, rfl⟩

/-- C4 amended: both failure modes are reported identically: whether the
reference matches a project with zero compatible releases (conjunct 1) or
matches no project and no search hit (conjunct 2), the caller receives
the bare reference in the failed list with no reason attached, so the two
cases cannot be told apart. -/
theorem claim_c4_amended :
    (∀ (reg : Registry) (mc loader name : String) (p : ProjectData),
      reg.byId name = some p →
      get_mod_versions reg p.pid mc loader = [] →
      process_mod_names reg mc loader [name] = ([], [name])) ∧
    (∀ (reg : Registry) (mc loader name : String),
      reg.byId name = none → reg.searchHits name = [] →
      process_mod_names reg mc loader [name] = ([], [name])) := by
  constructor
  · intro reg mc loader name p hid hv
    simp [process_mod_names, hid, create_mod_info_from_api_data, hv]
  · intro reg mc loader name hid hs
    simp [process_mod_names, hid, hs]

theorem claim_c4_witness :
    (regIncompatible.byId "m" = some sampleProject ∧
      get_mod_versions regIncompatible sampleProject.pid "1.20.1" "fabric" =
        [] ∧
      process_mod_names regIncompatible "1.20.1" "fabric" ["m"] =
        ([], ["m"])) ∧
    (regAbsent.byId "m" = none ∧ regAbsent.searchHits "m" = [] ∧
      process_mod_names regAbsent "1.20.1" "fabric" ["m"] = ([], ["m"])) :=
  ⟨⟨rfl, rfl, claim_c4_amended.1 regIncompatible "1.20.1" "fabric" "m"
      sampleProject rfl rfl⟩,
   ⟨rfl, rfl, claim_c4_amended.2 regAbsent "1.20.1" "fabric" "m" rfl rfl⟩⟩

end Qwikee




